import Mathlib

/-!
Shallow embedding of `ticket_generator.py` (hapltech/raffle-ticket).

The program composes numbered raffle-ticket images from one template
(`TicketGenerator.add_numbers_to_ticket` writing to disk and
`TicketGenerator.add_numbers_to_ticket_memory` working in memory) and lays
them out on landscape-A4 PDF pages in a 2-column grid
(`PDFGenerator.create_pdf`).

Modelling choices:
* lengths in PDF points are rationals (`ℚ`); reportlab's A4 constants are
  the exact values `210*72/25.4` and `297*72/25.4` points, of which the
  floats in reportlab are the nearest doubles;
* pixel coordinates are integers (`ℤ`), colors are RGBA quadruples of `ℕ`;
* Python's `int((a) // 2.7)` on nonnegative integers is the floor of the
  exact rational quotient, embedded as `Int.floor (a / (27/10) : ℚ)`;
* font rasterisation (PIL `ImageDraw.text`) is an external input: the
  embedding is parametrised by a rasteriser function, exactly as the code
  is parametrised by the loaded `self.vertical_font`.
-/

namespace RaffleTicket

/-- Module-level constant `FONT_SIZE = 32` (line 13). -/
def FONT_SIZE : ℕ := 32

/-- Module-level constant `MARGIN = 20` (line 14). -/
def MARGIN : ℚ := 20

/-- Module-level constant `SPACING = 10` (line 15). -/
def SPACING : ℚ := 10

/-- Module-level constant `TEXT_PADDING = 50` (line 18). -/
def TEXT_PADDING : ℤ := 50

/-- reportlab A4 width: 210 mm at 72 points per inch, `210*72/25.4` pt. -/
def a4_width : ℚ := 75600 / 127

/-- reportlab A4 height: 297 mm at 72 points per inch, `297*72/25.4` pt. -/
def a4_height : ℚ := 106920 / 127

/-- `landscape(A4)` swaps to (841.89…, 595.27…); `PDFGenerator.__init__`
stores the first component as `self.page_width` (line 113). -/
def page_width : ℚ := a4_height

/-- Second component of `landscape(A4)`, stored as `self.page_height`
(line 113). -/
def page_height : ℚ := a4_width

/-- `self.tickets_per_page = 8` (line 114), the 2x4 layout. -/
def tickets_per_page : ℕ := 8

/-- Python `f-string` zero padding `{n:06d}` for a nonnegative integer:
the decimal digits of `n`, left-padded with `'0'` to a minimum width
of 6 characters. -/
def zero_pad_6 (n : ℕ) : String :=
  String.mk (List.replicate (6 - (Nat.repr n).length) '0' ++ (Nat.repr n).data)

/-- `formatted_number = f"NO: {ticket_number:06d}"` (lines 60 and 92). -/
def formatted_number (n : ℕ) : String := "NO: " ++ zero_pad_6 n

/-- `usable_width = self.page_width - (2 * MARGIN)` (line 123). -/
def usable_width : ℚ := page_width - 2 * MARGIN

/-- `usable_height = self.page_height - (2 * MARGIN)` (line 124). -/
def usable_height : ℚ := page_height - 2 * MARGIN

/-- `ticket_width = (usable_width - SPACING) / 2` (line 133), the candidate
cell width before the aspect-ratio fit. -/
def candidate_ticket_width : ℚ := (usable_width - SPACING) / 2

/-- `ticket_height = (usable_height - SPACING) / 2` (line 134), the
candidate cell height before the aspect-ratio fit. -/
def candidate_ticket_height : ℚ := (usable_height - SPACING) / 2

/-- Lines 136-139: if `ticket_width / ticket_height > template_ratio` the
width is reassigned to `ticket_height * template_ratio`, otherwise the
height is reassigned to `ticket_width / template_ratio`. -/
def aspect_fit (ticket_width ticket_height r : ℚ) : ℚ × ℚ :=
  if ticket_width / ticket_height > r then (ticket_height * r, ticket_height)
  else (ticket_width, ticket_width / r)

/-- `total_pages = math.ceil(num_tickets / self.tickets_per_page)`
(line 141). -/
def total_pages (n : ℕ) : ℕ := ⌈(n : ℚ) / 8⌉₊

/-- The page-break condition `page_position == 0 and i != 0` (line 167),
with `page_position = i % self.tickets_per_page` (line 163). -/
def page_break (i : ℕ) : Bool := i % tickets_per_page == 0 && i != 0

/-- `x = MARGIN + col * (ticket_width + SPACING)` (line 170). -/
def x_pos (cell_w : ℚ) (col : ℕ) : ℚ := MARGIN + col * (cell_w + SPACING)

/-- `y = self.page_height - MARGIN - (row + 1) * ticket_height - row * SPACING`
(line 171). -/
def y_pos (cell_h : ℚ) (row : ℕ) : ℚ :=
  page_height - MARGIN - (row + 1) * cell_h - row * SPACING

/-- One ticket as placed by the `create_pdf` loop: its 0-based ordinal `i`,
its printed number and label, and the page index and cell rectangle it is
drawn at (`c.drawImage(..., x, y, ticket_width, ticket_height)`, line 173). -/
structure PlacedTicket where
  ordinal : ℕ
  number : ℕ
  label : String
  page : ℕ
  x : ℚ
  y : ℚ
  w : ℚ
  h : ℚ
  deriving DecidableEq, Repr

/-- Canvas state threaded through the `create_pdf` loop: how many
`c.showPage()` calls happened so far (each one finishes a page), and the
tickets drawn so far in order. -/
structure CanvasState where
  pages_completed : ℕ
  placed : List PlacedTicket
  deriving DecidableEq, Repr

/-- Body of `for i in range(num_tickets)` (lines 146-173), placement part:
`ticket_number = start_number + i`; `page_position = i % 8`;
`row = page_position // 2`; `col = page_position % 2`; `c.showPage()` when
`page_position == 0 and i != 0`; then the ticket image (whose overlay text
is `formatted_number ticket_number`) is drawn at `(x, y)` on the current
page. -/
def loop_body (cell_w cell_h : ℚ) (start_number : ℕ) (s : CanvasState)
    (i : ℕ) : CanvasState :=
  let ticket_number := start_number + i
  let page_position := i % tickets_per_page
  let row := page_position / 2
  let col := page_position % 2
  { pages_completed :=
      if page_break i then s.pages_completed + 1 else s.pages_completed
    placed := s.placed ++
      [{ ordinal := i
         number := ticket_number
         label := formatted_number ticket_number
         page :=
           if page_break i then s.pages_completed + 1 else s.pages_completed
         x := x_pos cell_w col
         y := y_pos cell_h row
         w := cell_w
         h := cell_h }] }

/-- `PDFGenerator.create_pdf` (lines 117-175), numbering and layout:
computes the template aspect ratio `template_w / template_h` (line 127),
the aspect-fitted cell size (lines 133-139), and runs the placement loop
over `i in range(num_tickets)`. -/
def create_pdf (template_w template_h : ℚ) (start_number num_tickets : ℕ) :
    CanvasState :=
  let r := template_w / template_h
  let fit := aspect_fit candidate_ticket_width candidate_ticket_height r
  (List.range num_tickets).foldl (loop_body fit.1 fit.2 start_number)
    { pages_completed := 0, placed := [] }

/-- Closed form of the ticket record appended at ordinal `i`. -/
def placed_ticket (cell_w cell_h : ℚ) (start_number i : ℕ) : PlacedTicket :=
  { ordinal := i
    number := start_number + i
    label := formatted_number (start_number + i)
    page := i / 8
    x := x_pos cell_w (i % 8 % 2)
    y := y_pos cell_h (i % 8 / 2)
    w := cell_w
    h := cell_h }

/-- An RGBA pixel, channels in 0..255. -/
def Color : Type := ℕ × ℕ × ℕ × ℕ

/-- PIL named color `"lightgray"` (the border outline fill, lines 57/89). -/
def lightgray_color : Color := (211, 211, 211, 255)

/-- `TEXT_COLOR = "#002f79"` (line 17). -/
def TEXT_COLOR : Color := (0, 47, 121, 255)

/-- Fully transparent white, the background of the text buffer
`Image.new("RGBA", ..., (255, 255, 255, 0))` (line 39). -/
def transparent : Color := (255, 255, 255, 0)

/-- A raster image: pixel dimensions and a pixel map. Only coordinates in
`[0, width) × [0, height)` are meaningful; the program never reads outside
an image's bounds. -/
structure Img where
  width : ℤ
  height : ℤ
  px : ℤ → ℤ → Color

/-- `template.copy()` (line 84): a Python-level object copy; as a value it
is the image itself — the point of the copy is allocation of a fresh
object, which the heap model below makes explicit. -/
def Img.copy (img : Img) : Img := img

/-- A font rasteriser: given the text and fill color, the pixel at `(x, y)`
of a transparent buffer on which `ImageDraw.text((0, 0), text, fill, font)`
(line 43) has been drawn. This is the external input corresponding to
`self.vertical_font` loaded by `_load_font` (excluded font-discovery
collaborator). -/
def FontRaster : Type := String → Color → ℤ → ℤ → Color

/-- PIL alpha compositing of a pasted source pixel over a destination
pixel, using the source's alpha as the mask (`img.paste(t, pos, t)`,
lines 68/76/99/106). -/
def composite (src dst : Color) : Color :=
  match src, dst with
  | (sr, sg, sb, sa), (dr, dg, db, da) =>
    ((sr * sa + dr * (255 - sa)) / 255,
     (sg * sa + dg * (255 - sa)) / 255,
     (sb * sa + db * (255 - sa)) / 255,
     da)

/-- `dst.paste(src, (x, y), src)`: composite `src` over the rectangle of
`dst` whose top-left corner is `(x, y)`. -/
def paste (dst src : Img) (x y : ℤ) : Img :=
  { dst with
    px := fun u v =>
      if x ≤ u ∧ u < x + src.width ∧ y ≤ v ∧ v < y + src.height then
        composite (src.px (u - x) (v - y)) (dst.px u v)
      else dst.px u v }

/-- `draw.rectangle([(0, 0), (w - 1, h - 1)], outline="lightgray", width=2)`
(lines 56-58 and 88-90): a 2-pixel outline drawn inward from the image
edges. -/
def draw_rectangle_outline (img : Img) : Img :=
  { img with
    px := fun x y =>
      if (0 ≤ x ∧ x < img.width ∧ 0 ≤ y ∧ y < img.height) ∧
          (x < 2 ∨ img.width - 2 ≤ x ∨ y < 2 ∨ img.height - 2 ≤ y) then
        lightgray_color
      else img.px x y }

/-- `img.rotate(90, expand=True)` (line 46): rotate 90 degrees
counter-clockwise, swapping the dimensions. -/
def rotate_90_expand (img : Img) : Img :=
  { width := img.height
    height := img.width
    px := fun x y => img.px (img.width - 1 - y) x }

/-- `TicketGenerator._create_vertical_text` (lines 36-48): allocate a
transparent RGBA buffer of size `(FONT_SIZE * len(text), FONT_SIZE)`,
draw the text horizontally, rotate 90 degrees with expansion. The
`img_height`/`img_width` parameters are accepted and unused, exactly as in
the source. -/
def create_vertical_text (font : FontRaster) (text : String)
    (img_height img_width : ℤ) (color : Color) : Img :=
  let text_width : ℤ := (FONT_SIZE : ℤ) * text.length
  let txt_img : Img :=
    { width := text_width
      height := (FONT_SIZE : ℤ)
      px := fun x y =>
        if 0 ≤ x ∧ x < text_width ∧ 0 ≤ y ∧ y < (FONT_SIZE : ℤ) then
          font text color x y
        else transparent }
  rotate_90_expand txt_img

/-- The shared vertical offset of both overlays,
`int((img_height - glyph_height) // 2.7)` (lines 67 and 98): the floor of
the exact quotient by 2.7. -/
def overlay_left_y (img_height glyph_height : ℤ) : ℤ :=
  ⌊((img_height - glyph_height : ℤ) : ℚ) / (27 / 10)⌋

/-- `TicketGenerator.add_numbers_to_ticket` (lines 50-80), image
composition part: `img` is `Image.open(self.template_path)`; the returned
image is what `img.save(output_path)` writes (path handling excluded). -/
def add_numbers_to_ticket (font : FontRaster) (img0 : Img)
    (ticket_number : ℕ) : Img :=
  let img := img0
  let img_width := img.width
  let img_height := img.height
  let img := draw_rectangle_outline img
  let formatted := formatted_number ticket_number
  let left_text := create_vertical_text font formatted img_height img_width TEXT_COLOR
  let left_x := TEXT_PADDING
  let left_y := overlay_left_y img_height left_text.height
  let img := paste img left_text left_x left_y
  let right_text := create_vertical_text font formatted img_height img_width TEXT_COLOR
  let right_x := img_width - TEXT_PADDING - right_text.width
  let right_y := left_y
  let img := paste img right_text right_x right_y
  img

/-- `TicketGenerator.add_numbers_to_ticket_memory` (lines 82-108): same
composition starting from `template.copy()`. -/
def add_numbers_to_ticket_memory (font : FontRaster) (template : Img)
    (ticket_number : ℕ) : Img :=
  let img := template.copy
  let img_width := img.width
  let img_height := img.height
  let img := draw_rectangle_outline img
  let formatted := formatted_number ticket_number
  let left_text := create_vertical_text font formatted img_height img_width TEXT_COLOR
  let left_x := TEXT_PADDING
  let left_y := overlay_left_y img_height left_text.height
  let img := paste img left_text left_x left_y
  let right_text := create_vertical_text font formatted img_height img_width TEXT_COLOR
  let right_x := img_width - TEXT_PADDING - right_text.width
  let right_y := left_y
  let img := paste img right_text right_x right_y
  img

/-- The overlay placement data computed by both composition paths
(lines 60-76 and 92-106): the text given to both glyph renders, the two
paste positions, and the rotated glyph dimensions
(size after `rotate(90, expand=True)` of a `(FONT_SIZE*len, FONT_SIZE)`
buffer). -/
structure OverlayPlacement where
  left_text : String
  right_text : String
  left_x : ℤ
  left_y : ℤ
  right_x : ℤ
  right_y : ℤ
  glyph_width : ℤ
  glyph_height : ℤ
  deriving DecidableEq, Repr

/-- The placement geometry of `add_numbers_to_ticket_memory` (lines
92-106; lines 62-76 are its verbatim duplicate) as a function of the
working image's dimensions and the ticket number. -/
def overlay_placement (img_width img_height : ℤ) (ticket_number : ℕ) :
    OverlayPlacement :=
  let formatted := formatted_number ticket_number
  let glyph_width : ℤ := (FONT_SIZE : ℤ)
  let glyph_height : ℤ := (FONT_SIZE : ℤ) * formatted.length
  let left_y := overlay_left_y img_height glyph_height
  { left_text := formatted
    right_text := formatted
    left_x := TEXT_PADDING
    left_y := left_y
    right_x := img_width - TEXT_PADDING - glyph_width
    right_y := left_y
    glyph_width := glyph_width
    glyph_height := glyph_height }

/-- A blank fallback image (never actually reached: the program only
dereferences live objects). -/
def blank_img : Img := { width := 0, height := 0, px := fun _ _ => transparent }

/-- Replace the object at index `r` of a heap by the result of mutating it
in place; out-of-range indices leave the heap unchanged. -/
def heap_mutate : List Img → ℕ → (Img → Img) → List Img
  | [], _, _ => []
  | x :: xs, 0, f => f x :: xs
  | x :: xs, n + 1, f => x :: heap_mutate xs n f

/-- `add_numbers_to_ticket_memory` against an explicit object heap, making
Python's object identity visible: `img = template.copy()` (line 84)
allocates a fresh object at the end of the heap, and every subsequent
mutating statement — the border `draw.rectangle` (line 88) and the two
`img.paste` calls (lines 99 and 106) — targets that fresh object.
Returns the heap after the call and the reference to the composed
ticket. -/
def compose_in_heap (font : FontRaster) (heap : List Img)
    (template_ref : ℕ) (ticket_number : ℕ) : List Img × ℕ :=
  let template := heap.getD template_ref blank_img
  let heap := heap ++ [template.copy]
  let img_ref := heap.length - 1
  let img_width := template.width
  let img_height := template.height
  let heap := heap_mutate heap img_ref draw_rectangle_outline
  let formatted := formatted_number ticket_number
  let left_text := create_vertical_text font formatted img_height img_width TEXT_COLOR
  let left_x := TEXT_PADDING
  let left_y := overlay_left_y img_height left_text.height
  let heap := heap_mutate heap img_ref (fun im => paste im left_text left_x left_y)
  let right_text := create_vertical_text font formatted img_height img_width TEXT_COLOR
  let right_x := img_width - TEXT_PADDING - right_text.width
  let right_y := left_y
  let heap := heap_mutate heap img_ref (fun im => paste im right_text right_x right_y)
  (heap, img_ref)

/-- The `create_pdf` loop's repeated per-ticket compositions (line 159),
each calling `add_numbers_to_ticket_memory` with the shared template
object: the heap after composing every ticket number in the list in
order. -/
def run_compositions (font : FontRaster) (heap : List Img)
    (template_ref : ℕ) : List ℕ → List Img
  | [] => heap
  | n :: ns =>
      run_compositions font (compose_in_heap font heap template_ref n).1
        template_ref ns

/-- A concrete 3x2 template image used as a witness input. -/
def sample_img : Img :=
  { width := 3, height := 2, px := fun _ _ => (10, 20, 30, 255) }

/-- A concrete font rasteriser used as a witness input: every pixel of the
text buffer is the fill color. -/
def sample_font : FontRaster := fun _ color _ _ => color

/-! ### Lemmas -/

lemma create_pdf_loop_spec (cell_w cell_h : ℚ) (start_number : ℕ) :
    ∀ n : ℕ,
      (List.range n).foldl (loop_body cell_w cell_h start_number)
          { pages_completed := 0, placed := [] } =
        { pages_completed := (n - 1) / 8
          placed := (List.range n).map (placed_ticket cell_w cell_h start_number) } := by
  intro n
  induction n with
  | zero => rfl
  | succ n ih =>
      have hpage :
          (if page_break n then (n - 1) / 8 + 1 else (n - 1) / 8) = n / 8 := by
        by_cases hbr : page_break n = true
        · rw [if_pos hbr]
          simp only [page_break, tickets_per_page, Bool.and_eq_true,
            beq_iff_eq, bne_iff_ne, ne_eq] at hbr
          omega
        · rw [if_neg hbr]
          simp only [page_break, tickets_per_page, Bool.and_eq_true,
            beq_iff_eq, bne_iff_ne, ne_eq, not_and_or, not_not] at hbr
          omega
      rw [List.range_succ, List.foldl_append, ih, List.map_append]
      simp only [List.foldl_cons, List.foldl_nil, List.map_cons, List.map_nil,
        loop_body, placed_ticket, tickets_per_page, hpage, Nat.add_sub_cancel]

lemma create_pdf_eq (template_w template_h : ℚ) (start_number num_tickets : ℕ) :
    create_pdf template_w template_h start_number num_tickets =
      { pages_completed := (num_tickets - 1) / 8
        placed := (List.range num_tickets).map
          (placed_ticket
            (aspect_fit candidate_ticket_width candidate_ticket_height
              (template_w / template_h)).1
            (aspect_fit candidate_ticket_width candidate_ticket_height
              (template_w / template_h)).2
            start_number) } := by
  simp only [create_pdf]
  exact create_pdf_loop_spec _ _ _ num_tickets

lemma ceil_div_eight (n : ℕ) (hn : 1 ≤ n) : ⌈(n : ℚ) / 8⌉₊ = (n + 7) / 8 := by
  have h1 : n ≤ 8 * ((n + 7) / 8) := by omega
  have h2 : 8 * ((n + 7) / 8) ≤ n + 7 := by omega
  have h1q : (n : ℚ) ≤ 8 * (((n + 7) / 8 : ℕ) : ℚ) := by exact_mod_cast h1
  have h2q : 8 * (((n + 7) / 8 : ℕ) : ℚ) ≤ (n : ℚ) + 7 := by exact_mod_cast h2
  have hk : (n + 7) / 8 ≠ 0 := by omega
  rw [Nat.ceil_eq_iff hk]
  constructor
  · rw [Nat.cast_sub (by omega : 1 ≤ (n + 7) / 8), Nat.cast_one,
      lt_div_iff₀ (by norm_num : (0 : ℚ) < 8)]
    linarith
  · rw [div_le_iff₀ (by norm_num : (0 : ℚ) < 8)]
    linarith

lemma heap_mutate_getElem?_of_ne (h : List Img) (r t : ℕ) (f : Img → Img)
    (hne : t ≠ r) : (heap_mutate h r f)[t]? = h[t]? := by
  induction h generalizing r t with
  | nil => rfl
  | cons x xs ih =>
      cases r with
      | zero =>
          cases t with
          | zero => exact absurd rfl hne
          | succ t => rfl
      | succ r =>
          cases t with
          | zero => simp only [heap_mutate, List.getElem?_cons_zero]
          | succ t =>
              simp only [heap_mutate, List.getElem?_cons_succ]
              exact ih r t (fun he => hne (by rw [he]))

lemma heap_mutate_length (h : List Img) (r : ℕ) (f : Img → Img) :
    (heap_mutate h r f).length = h.length := by
  induction h generalizing r with
  | nil => rfl
  | cons x xs ih =>
      cases r with
      | zero => rfl
      | succ r => simp only [heap_mutate, List.length_cons, ih]

lemma compose_in_heap_fst_length (font : FontRaster) (heap : List Img)
    (template_ref ticket_number : ℕ) :
    (compose_in_heap font heap template_ref ticket_number).1.length =
      heap.length + 1 := by
  simp only [compose_in_heap, heap_mutate_length, List.length_append,
    List.length_cons, List.length_nil]

lemma compose_in_heap_fst_getElem? (font : FontRaster) (heap : List Img)
    (template_ref ticket_number t : ℕ) (ht : t < heap.length) :
    (compose_in_heap font heap template_ref ticket_number).1[t]? = heap[t]? := by
  have hne : t ≠ heap.length + 1 - 1 := by omega
  simp only [compose_in_heap, List.length_append, List.length_cons,
    List.length_nil, Nat.zero_add]
  rw [heap_mutate_getElem?_of_ne _ _ _ _ hne, heap_mutate_getElem?_of_ne _ _ _ _ hne,
    heap_mutate_getElem?_of_ne _ _ _ _ hne, List.getElem?_append_left ht]

lemma run_compositions_getElem? (font : FontRaster) (template_ref t : ℕ)
    (ns : List ℕ) :
    ∀ heap : List Img, t < heap.length →
      (run_compositions font heap template_ref ns)[t]? = heap[t]? := by
  induction ns with
  | nil => intro heap _; rfl
  | cons n ns ih =>
      intro heap ht
      rw [run_compositions,
        ih _ (by rw [compose_in_heap_fst_length]; omega),
        compose_in_heap_fst_getElem? _ _ _ _ _ ht]

/-! ### Claims -/

/-- C1: for every valid pair (`start_number ≥ 1`, `num_tickets ≥ 1`), the
run emits exactly `num_tickets` tickets whose numbers are
`start_number, start_number + 1, …, start_number + num_tickets - 1` in that
order, and each number is formatted as the string `"NO: "` followed by the
number zero-padded to 6 digits. -/
theorem c1_emitted_numbers_and_format (template_w template_h : ℚ)
    (start_number num_tickets : ℕ)
    (hs : 1 ≤ start_number) (hn : 1 ≤ num_tickets) :
    (create_pdf template_w template_h start_number num_tickets).placed.length
        = num_tickets ∧
    (create_pdf template_w template_h start_number num_tickets).placed.map
        PlacedTicket.number = (List.range num_tickets).map (fun i => start_number + i) ∧
    ∀ pt ∈ (create_pdf template_w template_h start_number num_tickets).placed,
      pt.label = "NO: " ++ String.mk
        (List.replicate (6 - (Nat.repr pt.number).length) '0' ++
          (Nat.repr pt.number).data) := by
  rw [create_pdf_eq]
  refine ⟨by simp, by rw [List.map_map]; rfl, ?_⟩
  intro pt hpt
  simp only [List.mem_map, List.mem_range] at hpt
  obtain ⟨i, hi, rfl⟩ := hpt
  rfl

/-- Witness for C1 at `template 2:1, start_number = 5, num_tickets = 3`. -/
theorem c1_witness :
    (1 ≤ 5 ∧ 1 ≤ 3) ∧
    ((create_pdf 2 1 5 3).placed.length = 3 ∧
      (create_pdf 2 1 5 3).placed.map PlacedTicket.number =
        (List.range 3).map (fun i => 5 + i) ∧
      ∀ pt ∈ (create_pdf 2 1 5 3).placed,
        pt.label = "NO: " ++ String.mk
          (List.replicate (6 - (Nat.repr pt.number).length) '0' ++
            (Nat.repr pt.number).data)) :=
  ⟨⟨by decide, by decide⟩,
    c1_emitted_numbers_and_format 2 1 5 3 (by decide) (by decide)⟩

/-- C2: for every 0-based ticket ordinal `i` drawn by the run, the grid
cell assigned to `i` is `page_position = i % 8`, `row = page_position / 2`,
`col = page_position % 2`, `page = i / 8`, with origin
`x = margin + col * (cell_w + spacing)` and
`y = page_height - margin - (row + 1) * cell_h - row * spacing`
(bottom-left origin), where `margin = 20` and `spacing = 10` and
`(cell_w, cell_h)` is the aspect-fitted cell size. -/
theorem c2_grid_cell (template_w template_h : ℚ)
    (start_number num_tickets i : ℕ) (hi : i < num_tickets) :
    (create_pdf template_w template_h start_number num_tickets).placed[i]? =
      some
        { ordinal := i
          number := start_number + i
          label := formatted_number (start_number + i)
          page := i / 8
          x := 20 + (↑(i % 8 % 2) : ℚ) *
            ((aspect_fit candidate_ticket_width candidate_ticket_height
              (template_w / template_h)).1 + 10)
          y := page_height - 20 -
            ((↑(i % 8 / 2) : ℚ) + 1) *
              (aspect_fit candidate_ticket_width candidate_ticket_height
                (template_w / template_h)).2 -
            (↑(i % 8 / 2) : ℚ) * 10
          w := (aspect_fit candidate_ticket_width candidate_ticket_height
            (template_w / template_h)).1
          h := (aspect_fit candidate_ticket_width candidate_ticket_height
            (template_w / template_h)).2 } := by
  rw [create_pdf_eq]
  rw [List.getElem?_map, List.getElem?_range hi]
  rfl

/-- Witness for C2 at ordinal `i = 3` of a 5-ticket run. -/
theorem c2_witness :
    3 < 5 ∧
    (create_pdf 2 1 1 5).placed[3]? =
      some
        { ordinal := 3
          number := 1 + 3
          label := formatted_number (1 + 3)
          page := 3 / 8
          x := 20 + ((3 % 8 % 2 : ℕ) : ℚ) *
            ((aspect_fit candidate_ticket_width candidate_ticket_height
              ((2 : ℚ) / 1)).1 + 10)
          y := page_height - 20 -
            (((3 % 8 / 2 : ℕ) : ℚ) + 1) *
              (aspect_fit candidate_ticket_width candidate_ticket_height
                ((2 : ℚ) / 1)).2 -
            ((3 % 8 / 2 : ℕ) : ℚ) * 10
          w := (aspect_fit candidate_ticket_width candidate_ticket_height
            ((2 : ℚ) / 1)).1
          h := (aspect_fit candidate_ticket_width candidate_ticket_height
            ((2 : ℚ) / 1)).2 } :=
  ⟨by decide, c2_grid_cell 2 1 1 5 3 (by decide)⟩

/-- C3: for every `num_tickets ≥ 1` the generated document has exactly
`⌈num_tickets / 8⌉` pages, a page break is triggered exactly when
`i % 8 = 0` and `i ≠ 0`, and `num_tickets = 8` yields exactly one page
with no page break triggered. -/
theorem c3_page_count (template_w template_h : ℚ)
    (start_number num_tickets : ℕ) (hn : 1 ≤ num_tickets) :
    (create_pdf template_w template_h start_number num_tickets).pages_completed
        + 1 = total_pages num_tickets ∧
    (∀ i : ℕ, page_break i = true ↔ (i % 8 = 0 ∧ i ≠ 0)) ∧
    (num_tickets = 8 →
      (create_pdf template_w template_h start_number num_tickets).pages_completed
          + 1 = 1 ∧
      ∀ i < num_tickets, page_break i = false) := by
  rw [create_pdf_eq]
  refine ⟨?_, ?_, ?_⟩
  · show (num_tickets - 1) / 8 + 1 = total_pages num_tickets
    rw [total_pages, ceil_div_eight num_tickets hn]
    omega
  · intro i
    simp only [page_break, tickets_per_page, Bool.and_eq_true, beq_iff_eq,
      bne_iff_ne, ne_eq]
  · rintro rfl
    exact ⟨rfl, by decide⟩

/-- Witness for C3 at `num_tickets = 10` (2 pages). -/
theorem c3_witness :
    1 ≤ 10 ∧
    ((create_pdf 2 1 1 10).pages_completed + 1 = total_pages 10 ∧
      (∀ i : ℕ, page_break i = true ↔ (i % 8 = 0 ∧ i ≠ 0)) ∧
      (10 = 8 →
        (create_pdf 2 1 1 10).pages_completed + 1 = 1 ∧
        ∀ i < 10, page_break i = false)) :=
  ⟨by decide, c3_page_count 2 1 1 10 (by decide)⟩

/-- C4: for every template ratio `r > 0` and candidate box
`(w, h)` with positive sides, the aspect fit shrinks exactly the dimension
that makes the candidate exceed ratio `r`: the result has ratio exactly
`r`, fits in the candidate box, and the untouched dimension is kept. -/
theorem c4_aspect_fit_shrinks_exceeding_dimension (w h r : ℚ)
    (hw : 0 < w) (hh : 0 < h) (hr : 0 < r) :
    (aspect_fit w h r).1 / (aspect_fit w h r).2 = r ∧
    (aspect_fit w h r).1 ≤ w ∧
    (aspect_fit w h r).2 ≤ h ∧
    (r < w / h → aspect_fit w h r = (h * r, h) ∧ h * r < w) ∧
    (w / h ≤ r → aspect_fit w h r = (w, w / r) ∧ w / r ≤ h) := by
  by_cases hc : w / h > r
  · have hlt : h * r < w := by
      have := (lt_div_iff₀ hh).mp hc
      linarith [this]
    rw [aspect_fit, if_pos hc]
    refine ⟨?_, le_of_lt hlt, le_refl h, fun _ => ⟨rfl, hlt⟩,
      fun hle => absurd hc (not_lt.mpr hle)⟩
    rw [mul_comm, mul_div_assoc, div_self hh.ne', mul_one]
  · have hle : w / h ≤ r := not_lt.mp hc
    have hwr : w / r ≤ h := by
      rw [div_le_iff₀ hr]
      have := (div_le_iff₀ hh).mp hle
      linarith [this]
    rw [aspect_fit, if_neg hc]
    refine ⟨?_, le_refl w, hwr, fun hgt => absurd hgt (not_lt.mpr hle),
      fun _ => ⟨rfl, hwr⟩⟩
    rw [div_div_eq_mul_div, mul_comm, mul_div_assoc, div_self hw.ne', mul_one]

/-- Witness for C4 at a wide box `(3, 1)` and square ratio `r = 1`. -/
theorem c4_witness :
    ((0 : ℚ) < 3 ∧ (0 : ℚ) < 1 ∧ (0 : ℚ) < 1) ∧
    ((aspect_fit 3 1 1).1 / (aspect_fit 3 1 1).2 = 1 ∧
      (aspect_fit 3 1 1).1 ≤ 3 ∧
      (aspect_fit 3 1 1).2 ≤ 1 ∧
      ((1 : ℚ) < 3 / 1 → aspect_fit 3 1 1 = (1 * 1, 1) ∧ (1 : ℚ) * 1 < 3) ∧
      ((3 : ℚ) / 1 ≤ 1 → aspect_fit 3 1 1 = (3, 3 / 1) ∧ (3 : ℚ) / 1 ≤ 1)) :=
  ⟨⟨by decide, by decide, by decide⟩,
    c4_aspect_fit_shrinks_exceeding_dimension 3 1 1 (by decide) (by decide)
      (by decide)⟩

/-- C5: the candidate cell width is `(usable_width - spacing) / 2` and the
candidate cell height is `(usable_height - spacing) / 2`, the usable
dimensions being the page dimensions minus a margin on each side; the
candidate height divides the usable height by 2 (not by 4, the row count
of the 8-per-page grid), and this exact arithmetic is preserved. -/
theorem c5_candidate_cell_arithmetic :
    candidate_ticket_width = (usable_width - SPACING) / 2 ∧
    candidate_ticket_height = (usable_height - SPACING) / 2 ∧
    usable_width = page_width - 2 * MARGIN ∧
    usable_height = page_height - 2 * MARGIN ∧
    tickets_per_page = 8 ∧
    candidate_ticket_height ≠ (usable_height - 3 * SPACING) / 4 := by
  refine ⟨rfl, rfl, rfl, rfl, rfl, ?_⟩
  norm_num [candidate_ticket_height, usable_height, page_height, a4_width,
    MARGIN, SPACING]

/-- C6 counterexample: for a template of aspect ratio 2:1 fitted into a
square 100×100 candidate box, the aspect fit returns `(100, 50)` — the
width is kept at the candidate width and the height is shrunk, so the
claim that the width (not the height) is shrunk is false. -/
theorem c6_counterexample :
    aspect_fit 100 100 2 = (100, 50) ∧
    ¬((aspect_fit 100 100 2).1 < 100 ∧ (aspect_fit 100 100 2).2 = 100) := by
  have hneg : ¬((100 : ℚ) / 100 > 2) := by norm_num
  have hfit : aspect_fit 100 100 2 = (100, 50) := by
    rw [aspect_fit, if_neg hneg]
    norm_num
  refine ⟨hfit, ?_⟩
  rw [hfit]
  norm_num

/-- C6 amended: for a template of aspect ratio 2:1 fitted into any square
candidate box of positive side `c`, the aspect-fit step shrinks the final
cell height (not the width) to preserve the 2:1 ratio: the result is
`(c, c / 2)`. -/
theorem c6_amended_height_is_shrunk (c : ℚ) (hc : 0 < c) :
    aspect_fit c c 2 = (c, c / 2) ∧ c / 2 < c ∧ (aspect_fit c c 2).1 = c := by
  have hcc : c / c = 1 := div_self hc.ne'
  have hfit : aspect_fit c c 2 = (c, c / 2) := by
    rw [aspect_fit, if_neg]
    rw [hcc]
    norm_num
  exact ⟨hfit, half_lt_self hc, by rw [hfit]⟩

/-- Witness for the amended C6 at `c = 100`. -/
theorem c6_amended_witness :
    (0 : ℚ) < 100 ∧
    (aspect_fit 100 100 2 = (100, 100 / 2) ∧ (100 : ℚ) / 2 < 100 ∧
      (aspect_fit 100 100 2).1 = 100) :=
  ⟨by decide, c6_amended_height_is_shrunk 100 (by decide)⟩

/-- C7 counterexample: on a 1414×1000 working image with ticket number 1,
the glyph image height is 320 and the computed shared vertical offset is
`int((1000 - 320) // 2.7) = 251`, which is not equal to the exact quotient
`(1000 - 320) / 2.7 = 6800/27`; the claim's exact-equality reading is
false. -/
theorem c7_counterexample :
    ((overlay_placement 1414 1000 1).left_y : ℚ) ≠
      ((1000 : ℚ) - ((overlay_placement 1414 1000 1).glyph_height : ℚ)) /
        (27 / 10) := by
  have hg : (overlay_placement 1414 1000 1).glyph_height = 320 := rfl
  have hy : (overlay_placement 1414 1000 1).left_y = 251 := by
    show overlay_left_y 1000 ((FONT_SIZE : ℤ) * ((formatted_number 1).length : ℤ)) = 251
    rw [show (((formatted_number 1).length : ℤ)) = 10 from rfl]
    simp only [overlay_left_y, FONT_SIZE]
    rw [Int.floor_eq_iff]
    push_cast
    norm_num
  rw [hg, hy]
  push_cast
  norm_num

/-- C7 amended: for every ticket, the two numbering overlays use the same
text string and the same vertical offset, are mirrored with equal insets
from their respective edges (left x is the padding, right x is
`image width - padding - glyph width`), and the shared vertical offset is
the floor of `(image height - glyph image height) / 2.7`. -/
theorem c7_amended_overlays_mirrored (w h : ℤ) (n : ℕ) :
    (overlay_placement w h n).left_text = (overlay_placement w h n).right_text ∧
    (overlay_placement w h n).right_y = (overlay_placement w h n).left_y ∧
    (overlay_placement w h n).left_x = TEXT_PADDING ∧
    (overlay_placement w h n).right_x =
      w - TEXT_PADDING - (overlay_placement w h n).glyph_width ∧
    w - ((overlay_placement w h n).right_x + (overlay_placement w h n).glyph_width)
        = TEXT_PADDING ∧
    (overlay_placement w h n).left_y =
      ⌊((h : ℚ) - ((overlay_placement w h n).glyph_height : ℚ)) / (27 / 10)⌋ := by
  refine ⟨rfl, rfl, rfl, rfl, by simp only [overlay_placement]; ring, ?_⟩
  simp only [overlay_placement, overlay_left_y]
  push_cast
  rfl

/-- C8: ticket composition is deterministic and the two composition paths
(the write-to-disk path `add_numbers_to_ticket` and the in-memory path
`add_numbers_to_ticket_memory`) compute identical border and overlay
geometry — in fact identical composed images — when given the same input
image and ticket number. -/
theorem c8_paths_identical (font : FontRaster) (t1 t2 : Img) (n : ℕ)
    (hteq : t1 = t2) :
    add_numbers_to_ticket font t1 n = add_numbers_to_ticket_memory font t2 n := by
  subst hteq
  rfl

/-- Witness for C8 on a concrete image, font and ticket number. -/
theorem c8_witness :
    sample_img = sample_img ∧
    add_numbers_to_ticket sample_font sample_img 7 =
      add_numbers_to_ticket_memory sample_font sample_img 7 :=
  ⟨rfl, c8_paths_identical sample_font sample_img sample_img 7 rfl⟩

/-- C9: composing tickets never mutates the shared template object: every
composition copies the template and mutates only the fresh copy (border
drawing and both overlay pastes), so after any number of in-memory
compositions against an object heap the template slot is unchanged. -/
theorem c9_template_never_mutated (font : FontRaster) (heap : List Img)
    (template_ref : ℕ) (ns : List ℕ) (ht : template_ref < heap.length) :
    (run_compositions font heap template_ref ns)[template_ref]? =
      heap[template_ref]? :=
  run_compositions_getElem? font template_ref template_ref ns heap ht

/-- Witness for C9: a heap holding one template, composed twice. -/
theorem c9_witness :
    0 < [sample_img].length ∧
    (run_compositions sample_font [sample_img] 0 [1, 2])[0]? =
      [sample_img][0]? :=
  ⟨by decide, c9_template_never_mutated sample_font [sample_img] 0 [1, 2]
    (by decide)⟩

/-- C10: with the candidate cell height `(usable_height - spacing) / 2` on
the 8-tickets-per-page 4-row grid, whenever the aspect fit keeps the full
candidate height (template ratio at most candidate width over candidate
height), the computed y origin for rows 2 and 3 is negative — below the
page's bottom edge; more generally a final cell height exceeding
`(usable_height - 3 * spacing) / 4` puts row 3 below the bottom margin. -/
theorem c10_bottom_rows_below_page (r : ℚ) (hr : 0 < r)
    (hfit : r ≤ candidate_ticket_width / candidate_ticket_height) :
    (aspect_fit candidate_ticket_width candidate_ticket_height r).2 =
      candidate_ticket_height ∧
    y_pos candidate_ticket_height 2 < 0 ∧
    y_pos candidate_ticket_height 3 < 0 ∧
    (∀ cell_h : ℚ, (usable_height - 3 * SPACING) / 4 < cell_h ↔
      y_pos cell_h 3 < MARGIN) := by
  have hcw : candidate_ticket_width = 50285 / 127 := by
    norm_num [candidate_ticket_width, usable_width, page_width, a4_height,
      MARGIN, SPACING]
  have hch : candidate_ticket_height = 34625 / 127 := by
    norm_num [candidate_ticket_height, usable_height, page_height, a4_width,
      MARGIN, SPACING]
  refine ⟨?_, ?_, ?_, ?_⟩
  · by_cases hgt : candidate_ticket_width / candidate_ticket_height > r
    · rw [aspect_fit, if_pos hgt]
    · have heq : r = candidate_ticket_width / candidate_ticket_height :=
        le_antisymm hfit (not_lt.mp hgt)
      rw [aspect_fit, if_neg hgt, heq, hcw, hch]
      norm_num
  · rw [hch]
    norm_num [y_pos, page_height, a4_width, MARGIN, SPACING]
  · rw [hch]
    norm_num [y_pos, page_height, a4_width, MARGIN, SPACING]
  · intro cell_h
    simp only [y_pos, usable_height, page_height, a4_width, MARGIN, SPACING]
    push_cast
    constructor <;> intro hlt <;> nlinarith [hlt]

/-- Witness for C10 at template ratio `r = 1` (square template). -/
theorem c10_witness :
    ((0 : ℚ) < 1 ∧ (1 : ℚ) ≤ candidate_ticket_width / candidate_ticket_height) ∧
    ((aspect_fit candidate_ticket_width candidate_ticket_height 1).2 =
        candidate_ticket_height ∧
      y_pos candidate_ticket_height 2 < 0 ∧
      y_pos candidate_ticket_height 3 < 0 ∧
      (∀ cell_h : ℚ, (usable_height - 3 * SPACING) / 4 < cell_h ↔
        y_pos cell_h 3 < MARGIN)) :=
  ⟨⟨by decide,
      by norm_num [candidate_ticket_width, candidate_ticket_height,
        usable_width, usable_height, page_width, page_height, a4_width,
        a4_height, MARGIN, SPACING]⟩,
    c10_bottom_rows_below_page 1 (by decide)
      (by norm_num [candidate_ticket_width, candidate_ticket_height,
        usable_width, usable_height, page_width, page_height, a4_width,
        a4_height, MARGIN, SPACING])⟩

end RaffleTicket
